import Mathlib

/-!
Shallow embedding of `internal/api/album.go` (photoprism album API handlers).

The two handlers at the heart of the spec are `DownloadAlbum`
(GET /albums/:uid/dl, zip archive export) and `AlbumThumbnail`
(GET /api/v1/albums/:uid/t/:token/:type, two-tier thumbnail pipeline),
plus the thin `GetAlbum` / `GetAlbums` endpoints.

External collaborators (database queries, the thumbnail generator,
`ioutil.ReadFile`, token randomness, I/O failures) are modelled as oracle
fields of an environment record; the filesystem is a set of existing paths;
the gocache memory cache is an association list keyed by string with an
absolute expiry instant.  Side effects the claims talk about (cache reads
and writes, generator invocations, disk reads, the best-effort
"FileMissing" flag update) are recorded in an event trace.
-/

namespace AlbumApi

/-- An existing-file set modelling the server filesystem. -/
structure FS where
  paths : List String
deriving DecidableEq

/-- Model of `pkg/fs.FileExists`: the path is present on the filesystem. -/
def FS.fileExists (fs : FS) (p : String) : Bool :=
  fs.paths.contains p

/-- Model of `os.Create`: the (empty) file exists from this point on. -/
def FS.create (fs : FS) (p : String) : FS :=
  ⟨p :: fs.paths⟩

/-- Model of `os.Remove`: the path is gone afterwards. -/
def FS.remove (fs : FS) (p : String) : FS :=
  ⟨fs.paths.filter (fun q => q != p)⟩

/-- Model of Go `path.Join` for the simple two-component joins the file uses. -/
def pathJoin (a b : String) : String := a ++ "/" ++ b

/-- An album row as used by the handlers (`entity.Album` projection). -/
structure Album where
  albumUID : String
  albumSlug : String
  albumTitle : String
deriving DecidableEq

/-- A photo file row as used by the handlers: `FileName`, `FileHash` and the
result of `ShareFileName()` (the display alias inside archives). -/
structure PhotoFile where
  fileName : String
  fileHash : String
  shareName : String
deriving DecidableEq

/-- Fallback icon payloads (`brokenIconSvg` and friends); modelled as three
distinct opaque strings. -/
def brokenIconSvg : String := "broken-icon-svg"

/-- The generic photo fallback icon payload (`photoIconSvg`). -/
def photoIconSvg : String := "photo-icon-svg"

/-- The generic album fallback icon payload (`albumIconSvg`). -/
def albumIconSvg : String := "album-icon-svg"

/-- The response a handler sends on the gin context. `file` is `c.File`
(status 200); `fileAttachment` is `c.File` preceded by a
`Content-Disposition: attachment` header; `data` is `c.Data`;
`abortJSON` is `c.AbortWithStatusJSON`; `jsonAlbum` is `c.JSON` of a row. -/
inductive Response where
  | data (status : Nat) (contentType : String) (body : String)
  | file (path : String)
  | fileAttachment (path : String) (name : String)
  | jsonAlbum (status : Nat) (album : Album)
  | abortJSON (status : Nat) (msg : String)
deriving DecidableEq

/-- HTTP status code carried by a response (`c.File` serves 200 here: every
`c.File` in these handlers is guarded by an existence check). -/
def Response.status : Response → Nat
  | .data s _ _ => s
  | .file _ => 200
  | .fileAttachment _ _ => 200
  | .jsonAlbum s _ => s
  | .abortJSON s _ => s

/-- Go `strings.Title` restricted to ASCII: a letter is mapped to upper case
when the previous character is not a letter. -/
def isAsciiLetter (c : Char) : Bool :=
  ('a' ≤ c && c ≤ 'z') || ('A' ≤ c && c ≤ 'Z')

/-- Worker for `asciiTitle`, threading whether the previous char was a letter. -/
def asciiTitleGo (prevIsLetter : Bool) : List Char → List Char
  | [] => []
  | c :: cs => (if prevIsLetter then c else c.toUpper) :: asciiTitleGo (isAsciiLetter c) cs

/-- Model of `strings.Title` on the ASCII slugs the handler feeds it. -/
def asciiTitle (s : String) : String := ⟨asciiTitleGo false s.data⟩

/-- `zipBaseName := fmt.Sprintf("%s-%s.zip", strings.Title(a.AlbumSlug), zipToken)`. -/
def zipBaseNameOf (slug tok : String) : String :=
  asciiTitle slug ++ "-" ++ tok ++ ".zip"

/-- `zipFileName := path.Join(path.Join(conf.TempPath(), "album"), zipBaseName)`. -/
def zipFileNameOf (tempPath slug tok : String) : String :=
  pathJoin (pathJoin tempPath "album") (zipBaseNameOf slug tok)

/-- Outcome of the zip build loop: the entry aliases written (in order), and
the file names recorded as skipped; `fail` means the loop aborted on an
`addFileToZip` error, with the entries/skips made before the abort. -/
inductive BuildResult where
  | ok (entries : List String) (skipped : List String)
  | fail (entries : List String) (skipped : List String)
deriving DecidableEq

/-- The `for _, f := range p` loop of `DownloadAlbum`: each file whose joined
path exists is added under its share alias via `addFileToZip` (aborting the
whole build if that write fails, modelled by the `writeFails` oracle);
a missing file is logged as skipped and the loop continues. -/
def buildZip (fs : FS) (origPath : String) (writeFails : String → Bool) :
    List PhotoFile → BuildResult
  | [] => .ok [] []
  | f :: rest =>
    let fileName := pathJoin origPath f.fileName
    if fs.fileExists fileName then
      if writeFails fileName then
        .fail [] []
      else
        match buildZip fs origPath writeFails rest with
        | .ok es sk => .ok (f.shareName :: es) sk
        | .fail es sk => .fail (f.shareName :: es) sk
    else
      match buildZip fs origPath writeFails rest with
      | .ok es sk => .ok es (f.fileName :: sk)
      | .fail es sk => .fail es (f.fileName :: sk)

/-- Environment of `DownloadAlbum`: database oracles, config paths, the value
drawn by `rnd.Token(3)` for this request, and I/O failure oracles
(`mkdirOk` for `os.MkdirAll`, `createOk` for `os.Create`, `writeFails` for
`addFileToZip`). -/
structure DlEnv where
  albumByUID : String → Option Album
  photoSearch : String → Except String (List PhotoFile)
  tempPath : String
  originalsPath : String
  zipToken : String
  mkdirOk : Bool
  createOk : Bool
  writeFails : String → Bool

/-- A download request: the `:uid` parameter and the result of the
`InvalidDownloadToken(c, conf)` gate (true means the token is valid). -/
structure DlReq where
  uid : String
  downloadTokenValid : Bool
deriving DecidableEq

/-- What a `DownloadAlbum` run leaves behind: the response, the final
filesystem, and the zip entries written / files skipped. -/
structure DlOut where
  resp : Response
  fs : FS
  entries : List String
  skipped : List String
deriving DecidableEq

/-- Shallow embedding of the `GET /albums/:uid/dl` handler (`DownloadAlbum`).
Mirrors the source order: token gate, album lookup, photo search, path and
name computation, `MkdirAll`, `os.Create`, the build loop, the final
existence check, serving with a `Content-Disposition` header, `os.Remove`. -/
def DownloadAlbum (env : DlEnv) (req : DlReq) (fs0 : FS) : DlOut :=
  if !req.downloadTokenValid then
    ⟨.data 403 "image/svg+xml" brokenIconSvg, fs0, [], []⟩
  else
    match env.albumByUID req.uid with
    | none => ⟨.abortJSON 404 "Album not found", fs0, [], []⟩
    | some a =>
      match env.photoSearch a.albumUID with
      | .error e => ⟨.abortJSON 404 e, fs0, [], []⟩
      | .ok p =>
        let zipBaseName := zipBaseNameOf a.albumSlug env.zipToken
        let zipFileName := zipFileNameOf env.tempPath a.albumSlug env.zipToken
        if !env.mkdirOk then
          ⟨.abortJSON 500 "failed to create zip folder", fs0, [], []⟩
        else if !env.createOk then
          ⟨.abortJSON 500 "failed to create zip file", fs0, [], []⟩
        else
          let fs1 := fs0.create zipFileName
          match buildZip fs1 env.originalsPath env.writeFails p with
          | .fail es sk => ⟨.abortJSON 500 "failed to create zip file", fs1, es, sk⟩
          | .ok es sk =>
            if !fs1.fileExists zipFileName then
              ⟨.data 404 "image/svg+xml" photoIconSvg, fs1, es, sk⟩
            else
              ⟨.fileAttachment zipFileName zipBaseName, fs1.remove zipFileName, es, sk⟩

/-- The gocache memory tier: entries are (key, payload, absolute expiry). -/
abbrev Cache := List (String × String × Nat)

/-- `time.Hour` as a TTL in seconds. -/
def timeHour : Nat := 3600

/-- `gc.Get(key)`: the stored payload when an entry for the key exists and
has not expired; gocache treats expired entries as absent. -/
def cacheGet (cache : Cache) (now : Nat) (key : String) : Option String :=
  match cache.find? (fun e => e.1 == key) with
  | some (_, v, exp) => if now < exp then some v else none
  | none => none

/-- `gc.Set(key, v, ttl)`: replaces any entry for the key with one expiring
`ttl` after insertion. -/
def cacheSet (cache : Cache) (now : Nat) (key v : String) (ttl : Nat) : Cache :=
  (key, v, now + ttl) :: cache.filter (fun e => e.1 != key)

/-- A thumbnail type policy (`thumb.Type`): target size, processing options,
and the two behaviour predicates the handler consults (`ExceedsLimit()` and
`OnDemand()`), taken as the boolean values those methods return. -/
structure ThumbType where
  width : Nat
  height : Nat
  options : List String
  exceedsLimit : Bool
  onDemand : Bool
deriving DecidableEq

/-- A thumbnail request: the `:uid` and `:type` parameters, the result of the
`InvalidToken(c, conf)` gate (true means valid), and `c.Query("download")`. -/
structure ThumbReq where
  uid : String
  typeName : String
  tokenValid : Bool
  downloadQuery : String
deriving DecidableEq

/-- Side effects of one `AlbumThumbnail` run that the spec talks about. -/
inductive Ev where
  | cacheGet (key : String)
  | cacheSet (key : String)
  | genFromFile (fileName : String)
  | genFromCache (fileName : String)
  | diskRead (p : String)
  | markMissing (fileName : String)
deriving DecidableEq

/-- True when the trace holds a generator invocation (`thumb.FromFile` or
`thumb.FromCache`). -/
def hasGenEvent (tr : List Ev) : Bool :=
  tr.any fun e =>
    match e with
    | .genFromFile _ => true
    | .genFromCache _ => true
    | _ => false

/-- Environment of `AlbumThumbnail`: the `thumb.Types` registry, database
oracle, config values, the two generator entry points and `ioutil.ReadFile`
as oracles returning a path / payload or an error. -/
structure ThumbEnv where
  types : String → Option ThumbType
  albumThumbByUID : String → Option PhotoFile
  originalsPath : String
  thumbPath : String
  thumbUncached : Bool
  fromFile : String → String → String → Nat → Nat → List String → Except String String
  fromCache : String → String → String → Nat → Nat → List String → Except String String
  readFile : String → Except String String

/-- What an `AlbumThumbnail` run produces: response, the memory cache after
the run, and the trace of side effects. -/
structure ThumbOut where
  resp : Response
  cache : Cache
  trace : List Ev
deriving DecidableEq

/-- `cacheKey := fmt.Sprintf("album-thumbnail:%s:%s", uid, typeName)`. -/
def thumbCacheKey (uid typeName : String) : String :=
  "album-thumbnail:" ++ uid ++ ":" ++ typeName

/-- Shallow embedding of the `GET /api/v1/albums/:uid/t/:token/:type` handler
(`AlbumThumbnail`).  Mirrors the source order: token gate, `thumb.Types`
lookup, memory-cache probe, `query.AlbumThumbByUID`, source-file existence
check (with the best-effort `FileMissing` flag update on absence), the
`ExceedsLimit` original-file short-circuit, generation via `thumb.FromFile`
or `thumb.FromCache`, `ioutil.ReadFile`, and the cache fill with a one-hour
TTL. -/
def AlbumThumbnail (env : ThumbEnv) (req : ThumbReq) (now : Nat)
    (cache : Cache) (fs : FS) : ThumbOut :=
  if !req.tokenValid then
    ⟨.data 403 "image/svg+xml" brokenIconSvg, cache, []⟩
  else
    match env.types req.typeName with
    | none => ⟨.data 200 "image/svg+xml" photoIconSvg, cache, []⟩
    | some thumbType =>
      let cacheKey := thumbCacheKey req.uid req.typeName
      match cacheGet cache now cacheKey with
      | some cacheData =>
        ⟨.data 200 "image/jpeg" cacheData, cache, [.cacheGet cacheKey]⟩
      | none =>
        match env.albumThumbByUID req.uid with
        | none =>
          ⟨.data 200 "image/svg+xml" albumIconSvg, cache, [.cacheGet cacheKey]⟩
        | some f =>
          let fileName := pathJoin env.originalsPath f.fileName
          if !fs.fileExists fileName then
            ⟨.data 200 "image/svg+xml" photoIconSvg, cache,
              [.cacheGet cacheKey, .markMissing f.fileName]⟩
          else if thumbType.exceedsLimit && req.downloadQuery == "" then
            ⟨.file fileName, cache, [.cacheGet cacheKey]⟩
          else
            let useOnDemand := env.thumbUncached || thumbType.onDemand
            let genRes :=
              if useOnDemand then
                env.fromFile fileName f.fileHash env.thumbPath
                  thumbType.width thumbType.height thumbType.options
              else
                env.fromCache fileName f.fileHash env.thumbPath
                  thumbType.width thumbType.height thumbType.options
            let genEv := if useOnDemand then Ev.genFromFile fileName
                         else Ev.genFromCache fileName
            match genRes with
            | .error _ =>
              ⟨.data 200 "image/svg+xml" photoIconSvg, cache,
                [.cacheGet cacheKey, genEv]⟩
            | .ok thumbnail =>
              match env.readFile thumbnail with
              | .error _ =>
                ⟨.data 200 "image/svg+xml" albumIconSvg, cache,
                  [.cacheGet cacheKey, genEv, .diskRead thumbnail]⟩
              | .ok thumbData =>
                ⟨.data 200 "image/jpeg" thumbData,
                  cacheSet cache now cacheKey thumbData timeHour,
                  [.cacheGet cacheKey, genEv, .diskRead thumbnail,
                    .cacheSet cacheKey]⟩

/-- Shallow embedding of the `GET /api/v1/albums/:uid` handler (`GetAlbum`):
look the album up by uid and return it, 404 when absent.  The handler reads
no authorization state — the `authorized` argument models what the
`Unauthorized(c, conf)` gate would have said, and is never consulted. -/
def GetAlbum (albumByUID : String → Option Album) (uid : String)
    (authorized : Bool) : Response :=
  match albumByUID uid with
  | none => .abortJSON 404 "Album not found"
  | some m => .jsonAlbum 200 m

/-- Shallow embedding of the `GET /api/v1/albums` handler (`GetAlbums`):
the `Unauthorized(c, conf)` gate first, then form binding, then the search;
binding and search are oracles. -/
def GetAlbums (authorized : Bool) (bindOk : Bool)
    (searchResult : Except String (List Album)) : Response :=
  if !authorized then
    .abortJSON 401 "Unauthorized"
  else if !bindOk then
    .abortJSON 400 "form binding failed"
  else
    match searchResult with
    | .error e => .abortJSON 400 e
    | .ok _ => .data 200 "application/json" "album search result"

/-- Concrete album fixture used to evaluate the handlers. -/
def sampleAlbum : Album := ⟨"a1", "summer", "Summer Trip"⟩

/-- Concrete photo fixture used to evaluate the handlers. -/
def samplePhoto : PhotoFile := ⟨"pic1.jpg", "h1", "Pic1.jpg"⟩

/-- A thumbnail type whose `ExceedsLimit()` predicate is true. -/
def bigType : ThumbType := ⟨9000, 9000, [], true, false⟩

/-- A concrete `DownloadAlbum` environment: one album `a1` with slug
`summer` containing `samplePhoto`; no I/O failures. -/
def dlEnvBase : DlEnv where
  albumByUID := fun u => if u == "a1" then some sampleAlbum else none
  photoSearch := fun _ => .ok [samplePhoto]
  tempPath := "tmp"
  originalsPath := "orig"
  zipToken := "abc"
  mkdirOk := true
  createOk := true
  writeFails := fun _ => false

/-- A concrete `AlbumThumbnail` environment: type registry with one entry
`big` (which exceeds the size limit), album `a1` resolving to `samplePhoto`,
generator producing `cache/t1`, whose payload reads as `TD`. -/
def thumbEnvBase : ThumbEnv where
  types := fun t => if t == "big" then some bigType else none
  albumThumbByUID := fun u => if u == "a1" then some samplePhoto else none
  originalsPath := "orig"
  thumbPath := "cache"
  thumbUncached := false
  fromFile := fun _ _ _ _ _ _ => .ok "cache/t1"
  fromCache := fun _ _ _ _ _ _ => .ok "cache/t1"
  readFile := fun p => if p == "cache/t1" then .ok "TD" else .error "read failed"

theorem FS.fileExists_create_self (fs : FS) (p : String) :
    (fs.create p).fileExists p = true := by
  simp [FS.create, FS.fileExists]

theorem FS.fileExists_remove_self (fs : FS) (p : String) :
    (fs.remove p).fileExists p = false := by
  simp [FS.remove, FS.fileExists, List.mem_filter]

/-- When no `addFileToZip` write fails, the build loop succeeds: the entry
aliases are the existing files in input order, the skipped names are the
missing files in input order. -/
theorem buildZip_eq (fs : FS) (orig : String) (wf : String → Bool)
    (items : List PhotoFile)
    (h : ∀ f ∈ items, fs.fileExists (pathJoin orig f.fileName) = true →
          wf (pathJoin orig f.fileName) = false) :
    buildZip fs orig wf items
      = .ok ((items.filter fun f => fs.fileExists (pathJoin orig f.fileName)).map
              PhotoFile.shareName)
            ((items.filter fun f => !fs.fileExists (pathJoin orig f.fileName)).map
              PhotoFile.fileName) := by
  induction items with
  | nil => rfl
  | cons f rest ih =>
    have hrest : ∀ g ∈ rest, fs.fileExists (pathJoin orig g.fileName) = true →
        wf (pathJoin orig g.fileName) = false :=
      fun g hg => h g (List.mem_cons_of_mem f hg)
    cases hex : fs.fileExists (pathJoin orig f.fileName) with
    | false => simp [buildZip, hex, ih hrest, List.filter_cons]
    | true =>
      have hw := h f (List.mem_cons_self f rest) hex
      simp [buildZip, hex, hw, ih hrest, List.filter_cons]

/-- Cancel a common prefix and a common suffix of a string equation. -/
theorem string_sandwich_inj (pre suf t1 t2 : String)
    (h : pre ++ t1 ++ suf = pre ++ t2 ++ suf) : t1 = t2 := by
  have hd := congrArg String.data h
  simp only [String.data_append, List.append_assoc] at hd
  have h1 := List.append_cancel_left hd
  exact String.ext (List.append_cancel_right h1)

/-- C1 counterexample: a download request for album `a1` whose single photo
exists on disk but whose `addFileToZip` write fails aborts with a server
error, yet the temp zip file created for the request still exists on the
filesystem after the request completes — the claim that the temp archive
file no longer exists after a mid-build I/O failure is false. -/
theorem c1_counterexample :
    (DownloadAlbum { dlEnvBase with writeFails := fun _ => true } ⟨"a1", true⟩
        ⟨["orig/pic1.jpg"]⟩).resp = Response.abortJSON 500 "failed to create zip file"
    ∧ (DownloadAlbum { dlEnvBase with writeFails := fun _ => true } ⟨"a1", true⟩
        ⟨["orig/pic1.jpg"]⟩).fs.fileExists "tmp/album/Summer-abc.zip" = true :=
  ⟨by decide, by decide⟩

/-- C1 (amended): after a request that creates the temp zip file, if the
build loop completes, the archive is served and the temp file no longer
exists afterwards; but if the build aborts on a mid-build I/O failure, the
handler surfaces a server error and the partial temp file remains on the
filesystem (only the handles are closed; the file is never removed). -/
theorem c1_temp_file_lifecycle (env : DlEnv) (req : DlReq) (fs0 : FS)
    (a : Album) (p : List PhotoFile) (es sk : List String)
    (hv : req.downloadTokenValid = true)
    (ha : env.albumByUID req.uid = some a)
    (hp : env.photoSearch a.albumUID = .ok p)
    (hm : env.mkdirOk = true) (hc : env.createOk = true) :
    (buildZip (fs0.create (zipFileNameOf env.tempPath a.albumSlug env.zipToken))
        env.originalsPath env.writeFails p = .ok es sk →
      (DownloadAlbum env req fs0).resp
          = .fileAttachment (zipFileNameOf env.tempPath a.albumSlug env.zipToken)
              (zipBaseNameOf a.albumSlug env.zipToken)
        ∧ (DownloadAlbum env req fs0).fs.fileExists
            (zipFileNameOf env.tempPath a.albumSlug env.zipToken) = false)
    ∧ (buildZip (fs0.create (zipFileNameOf env.tempPath a.albumSlug env.zipToken))
        env.originalsPath env.writeFails p = .fail es sk →
      (DownloadAlbum env req fs0).resp = .abortJSON 500 "failed to create zip file"
        ∧ (DownloadAlbum env req fs0).fs.fileExists
            (zipFileNameOf env.tempPath a.albumSlug env.zipToken) = true) := by
  constructor
  · intro hb
    simp [DownloadAlbum, hv, ha, hp, hm, hc, hb, FS.fileExists_create_self,
      FS.fileExists_remove_self]
  · intro hb
    simp [DownloadAlbum, hv, ha, hp, hm, hc, hb, FS.fileExists_create_self]

/-- C1 witness: the amended theorem evaluated on a successful export (temp
file gone afterwards) and on an aborted one (temp file still there). -/
theorem c1_temp_file_lifecycle_witness :
    (DownloadAlbum dlEnvBase ⟨"a1", true⟩ ⟨["orig/pic1.jpg"]⟩).fs.fileExists
        (zipFileNameOf "tmp" "summer" "abc") = false
    ∧ (DownloadAlbum { dlEnvBase with writeFails := fun _ => true } ⟨"a1", true⟩
        ⟨["orig/pic1.jpg"]⟩).fs.fileExists (zipFileNameOf "tmp" "summer" "abc") = true := by
  constructor
  · exact ((c1_temp_file_lifecycle dlEnvBase ⟨"a1", true⟩ ⟨["orig/pic1.jpg"]⟩ sampleAlbum
      [samplePhoto] ["Pic1.jpg"] [] rfl rfl rfl rfl rfl).1 (by decide)).2
  · exact ((c1_temp_file_lifecycle { dlEnvBase with writeFails := fun _ => true } ⟨"a1", true⟩
      ⟨["orig/pic1.jpg"]⟩ sampleAlbum [samplePhoto] [] [] rfl rfl rfl rfl rfl).2 (by decide)).2

/-- C2 counterexample: a download request for album `a1` whose only candidate
file is missing from the filesystem serves the (empty) zip archive as a
download attachment — it does not return the fallback icon, so the claim
that zero archivable files yields a fallback icon is false. -/
theorem c2_counterexample :
    (DownloadAlbum dlEnvBase ⟨"a1", true⟩ ⟨[]⟩).entries = []
    ∧ (DownloadAlbum dlEnvBase ⟨"a1", true⟩ ⟨[]⟩).resp
        = Response.fileAttachment "tmp/album/Summer-abc.zip" "Summer-abc.zip"
    ∧ (DownloadAlbum dlEnvBase ⟨"a1", true⟩ ⟨[]⟩).resp
        ≠ Response.data 404 "image/svg+xml" photoIconSvg :=
  ⟨by decide, by decide, by decide⟩

/-- C2 (amended): when every candidate file is missing, the handler still
serves an empty zip archive as a download: the fallback-icon branch tests
only whether the zip file exists at serve time, and the file created by
`os.Create` does exist, so the branch cannot fire once creation succeeded. -/
theorem c2_zero_files_serves_empty_zip (env : DlEnv) (req : DlReq) (fs0 : FS)
    (a : Album) (p : List PhotoFile)
    (hv : req.downloadTokenValid = true)
    (ha : env.albumByUID req.uid = some a)
    (hp : env.photoSearch a.albumUID = .ok p)
    (hm : env.mkdirOk = true) (hc : env.createOk = true)
    (hmiss : ∀ f ∈ p,
      (fs0.create (zipFileNameOf env.tempPath a.albumSlug env.zipToken)).fileExists
        (pathJoin env.originalsPath f.fileName) = false) :
    (DownloadAlbum env req fs0).entries = []
    ∧ (DownloadAlbum env req fs0).resp
        = .fileAttachment (zipFileNameOf env.tempPath a.albumSlug env.zipToken)
            (zipBaseNameOf a.albumSlug env.zipToken) := by
  have hb : buildZip (fs0.create (zipFileNameOf env.tempPath a.albumSlug env.zipToken))
      env.originalsPath env.writeFails p = .ok [] (p.map PhotoFile.fileName) := by
    rw [buildZip_eq _ _ _ _ (fun f hf hex => absurd hex (by simp [hmiss f hf]))]
    have hnil : (p.filter fun f =>
        (fs0.create (zipFileNameOf env.tempPath a.albumSlug env.zipToken)).fileExists
          (pathJoin env.originalsPath f.fileName)) = [] := by
      rw [List.filter_eq_nil_iff]
      intro f hf
      simp [hmiss f hf]
    have hall : (p.filter fun f =>
        !(fs0.create (zipFileNameOf env.tempPath a.albumSlug env.zipToken)).fileExists
          (pathJoin env.originalsPath f.fileName)) = p := by
      rw [List.filter_eq_self]
      intro f hf
      simp [hmiss f hf]
    rw [hnil, hall]
    rfl
  simp [DownloadAlbum, hv, ha, hp, hm, hc, hb, FS.fileExists_create_self]

/-- C2 witness: the amended theorem evaluated at a concrete album whose only
source file is missing. -/
theorem c2_zero_files_serves_empty_zip_witness :
    (DownloadAlbum dlEnvBase ⟨"a1", true⟩ ⟨[]⟩).entries = []
    ∧ (DownloadAlbum dlEnvBase ⟨"a1", true⟩ ⟨[]⟩).resp
        = Response.fileAttachment (zipFileNameOf "tmp" "summer" "abc")
            (zipBaseNameOf "summer" "abc") :=
  c2_zero_files_serves_empty_zip dlEnvBase ⟨"a1", true⟩ ⟨[]⟩ sampleAlbum [samplePhoto]
    rfl rfl rfl rfl rfl (by decide)

/-- C7: in a build with no write failures, every existing file is appended
under its display alias, every missing file is recorded as skipped without
aborting, and the archive entry order is the input order restricted to the
existing files. -/
theorem c7_archive_build_order (fs : FS) (orig : String) (wf : String → Bool)
    (items : List PhotoFile)
    (h : ∀ f ∈ items, fs.fileExists (pathJoin orig f.fileName) = true →
          wf (pathJoin orig f.fileName) = false) :
    buildZip fs orig wf items
      = .ok ((items.filter fun f => fs.fileExists (pathJoin orig f.fileName)).map
              PhotoFile.shareName)
            ((items.filter fun f => !fs.fileExists (pathJoin orig f.fileName)).map
              PhotoFile.fileName) :=
  buildZip_eq fs orig wf items h

/-- C7 witness: a two-item build — one existing file, one missing — yields
one entry under its alias and one skipped name. -/
theorem c7_archive_build_order_witness :
    buildZip ⟨["orig/pic1.jpg"]⟩ "orig" (fun _ => false)
        [samplePhoto, ⟨"gone.jpg", "h2", "Gone.jpg"⟩]
      = .ok ["Pic1.jpg"] ["gone.jpg"] :=
  (c7_archive_build_order ⟨["orig/pic1.jpg"]⟩ "orig" (fun _ => false)
      [samplePhoto, ⟨"gone.jpg", "h2", "Gone.jpg"⟩] (fun _ _ _ => rfl)).trans
    (by decide)

/-- C8: two export requests for the same album at the same instant that draw
distinct random tokens compute distinct destination filenames, so neither
overwrites the other's temp file. -/
theorem c8_distinct_zip_names (tempPath slug t1 t2 : String) (h : t1 ≠ t2) :
    zipFileNameOf tempPath slug t1 ≠ zipFileNameOf tempPath slug t2 := by
  intro hcon
  apply h
  apply string_sandwich_inj (tempPath ++ "/album" ++ "/" ++ (asciiTitle slug ++ "-")) ".zip"
  have e1 : zipFileNameOf tempPath slug t1
      = (tempPath ++ "/album" ++ "/" ++ (asciiTitle slug ++ "-")) ++ t1 ++ ".zip" := by
    simp [zipFileNameOf, zipBaseNameOf, pathJoin, String.append_assoc]
  have e2 : zipFileNameOf tempPath slug t2
      = (tempPath ++ "/album" ++ "/" ++ (asciiTitle slug ++ "-")) ++ t2 ++ ".zip" := by
    simp [zipFileNameOf, zipBaseNameOf, pathJoin, String.append_assoc]
  rw [e1, e2] at hcon
  exact hcon

/-- C8 witness: two concrete distinct tokens for the `summer` album give
distinct zip filenames. -/
theorem c8_distinct_zip_names_witness :
    zipFileNameOf "tmp" "summer" "abc" ≠ zipFileNameOf "tmp" "summer" "abd" :=
  c8_distinct_zip_names "tmp" "summer" "abc" "abd" (by decide)

/-- C5: a request failing the token gate is answered with the 403 broken
icon immediately: the thumbnail handler leaves the cache unchanged with an
empty side-effect trace, and the download handler leaves the filesystem
unchanged and builds nothing. -/
theorem c5_unauthorized_untouched (env : ThumbEnv) (req : ThumbReq) (now : Nat)
    (cache : Cache) (fs : FS) (denv : DlEnv) (dreq : DlReq) (dfs : FS)
    (h1 : req.tokenValid = false) (h2 : dreq.downloadTokenValid = false) :
    AlbumThumbnail env req now cache fs
        = ⟨.data 403 "image/svg+xml" brokenIconSvg, cache, []⟩
    ∧ DownloadAlbum denv dreq dfs
        = ⟨.data 403 "image/svg+xml" brokenIconSvg, dfs, [], []⟩ := by
  constructor
  · simp [AlbumThumbnail, h1]
  · simp [DownloadAlbum, h2]

/-- C5 witness: concrete unauthorized thumbnail and download requests. -/
theorem c5_unauthorized_untouched_witness :
    AlbumThumbnail thumbEnvBase ⟨"a1", "big", false, ""⟩ 0 [] ⟨[]⟩
        = ⟨.data 403 "image/svg+xml" brokenIconSvg, [], []⟩
    ∧ DownloadAlbum dlEnvBase ⟨"a1", false⟩ ⟨[]⟩
        = ⟨.data 403 "image/svg+xml" brokenIconSvg, ⟨[]⟩, [], []⟩ :=
  c5_unauthorized_untouched thumbEnvBase ⟨"a1", "big", false, ""⟩ 0 [] ⟨[]⟩
    dlEnvBase ⟨"a1", false⟩ ⟨[]⟩ rfl rfl

/-- Every response of the thumbnail handler carries status 200, except the
broken-icon response to an invalid token, which carries 403. -/
theorem albumThumbnail_status (env : ThumbEnv) (req : ThumbReq) (now : Nat)
    (cache : Cache) (fs : FS) :
    (AlbumThumbnail env req now cache fs).resp.status
      = if req.tokenValid then 200 else 403 := by
  cases htv : req.tokenValid with
  | false => simp [AlbumThumbnail, htv, Response.status]
  | true =>
    rcases hty : env.types req.typeName with _ | t
    · simp [AlbumThumbnail, htv, hty, Response.status]
    · rcases hcg : cacheGet cache now (thumbCacheKey req.uid req.typeName) with _ | d
      · rcases hab : env.albumThumbByUID req.uid with _ | f
        · simp [AlbumThumbnail, htv, hty, hcg, hab, Response.status]
        · cases hfe : fs.fileExists (pathJoin env.originalsPath f.fileName) with
          | false => simp [AlbumThumbnail, htv, hty, hcg, hab, hfe, Response.status]
          | true =>
            cases hsc : (t.exceedsLimit && req.downloadQuery == "") with
            | true => simp [AlbumThumbnail, htv, hty, hcg, hab, hfe, hsc, Response.status]
            | false =>
              cases hud : (env.thumbUncached || t.onDemand) with
              | true =>
                rcases hg : env.fromFile (pathJoin env.originalsPath f.fileName)
                    f.fileHash env.thumbPath t.width t.height t.options with e | pth
                · simp [AlbumThumbnail, htv, hty, hcg, hab, hfe, hsc, hud, hg,
                    Response.status]
                · rcases hr : env.readFile pth with e2 | d2
                  · simp [AlbumThumbnail, htv, hty, hcg, hab, hfe, hsc, hud, hg, hr,
                      Response.status]
                  · simp [AlbumThumbnail, htv, hty, hcg, hab, hfe, hsc, hud, hg, hr,
                      Response.status]
              | false =>
                rcases hg : env.fromCache (pathJoin env.originalsPath f.fileName)
                    f.fileHash env.thumbPath t.width t.height t.options with e | pth
                · simp [AlbumThumbnail, htv, hty, hcg, hab, hfe, hsc, hud, hg,
                    Response.status]
                · rcases hr : env.readFile pth with e2 | d2
                  · simp [AlbumThumbnail, htv, hty, hcg, hab, hfe, hsc, hud, hg, hr,
                      Response.status]
                  · simp [AlbumThumbnail, htv, hty, hcg, hab, hfe, hsc, hud, hg, hr,
                      Response.status]
      · simp [AlbumThumbnail, htv, hty, hcg, Response.status]

/-- C3 counterexample: the cache key does not include the download flag, so a
first request for the oversized type `big` with the download flag set fills
the memory cache, and a second request without the flag is then served the
cached JPEG bytes — not the original source file — refuting the claim that
every ExceedsLimit request without the download flag serves the original. -/
theorem c3_counterexample :
    (AlbumThumbnail thumbEnvBase ⟨"a1", "big", true, ""⟩ 0
        (AlbumThumbnail thumbEnvBase ⟨"a1", "big", true, "1"⟩ 0 [] ⟨["orig/pic1.jpg"]⟩).cache
        ⟨["orig/pic1.jpg"]⟩).resp
      = Response.data 200 "image/jpeg" "TD"
    ∧ (AlbumThumbnail thumbEnvBase ⟨"a1", "big", true, ""⟩ 0
        (AlbumThumbnail thumbEnvBase ⟨"a1", "big", true, "1"⟩ 0 [] ⟨["orig/pic1.jpg"]⟩).cache
        ⟨["orig/pic1.jpg"]⟩).resp
      ≠ Response.file (pathJoin "orig" "pic1.jpg") :=
  ⟨by decide, by decide⟩

/-- C3 (amended): an ExceedsLimit request without the download flag never
invokes the generator; and whenever it passes the token gate, misses the
memory cache, resolves a photo and finds the source file on disk, it serves
that original file verbatim.  (On a memory-cache hit it serves the cached
bytes instead of the original.) -/
theorem c3_exceeds_limit_short_circuit (env : ThumbEnv) (req : ThumbReq) (now : Nat)
    (cache : Cache) (fs : FS) (t : ThumbType) (f : PhotoFile)
    (ht : env.types req.typeName = some t)
    (hex : t.exceedsLimit = true) (hd : req.downloadQuery = "") :
    hasGenEvent (AlbumThumbnail env req now cache fs).trace = false
    ∧ (req.tokenValid = true →
        cacheGet cache now (thumbCacheKey req.uid req.typeName) = none →
        env.albumThumbByUID req.uid = some f →
        fs.fileExists (pathJoin env.originalsPath f.fileName) = true →
        (AlbumThumbnail env req now cache fs).resp
          = .file (pathJoin env.originalsPath f.fileName)) := by
  constructor
  · cases htv : req.tokenValid with
    | false => simp [AlbumThumbnail, htv, hasGenEvent]
    | true =>
      rcases hcg : cacheGet cache now (thumbCacheKey req.uid req.typeName) with _ | d
      · rcases hab : env.albumThumbByUID req.uid with _ | g
        · simp [AlbumThumbnail, htv, ht, hcg, hab, hasGenEvent]
        · cases hfe : fs.fileExists (pathJoin env.originalsPath g.fileName) with
          | false => simp [AlbumThumbnail, htv, ht, hcg, hab, hfe, hasGenEvent]
          | true => simp [AlbumThumbnail, htv, ht, hcg, hab, hfe, hex, hd, hasGenEvent]
      · simp [AlbumThumbnail, htv, ht, hcg, hasGenEvent]
  · intro h1 h2 h3 h4
    simp [AlbumThumbnail, h1, ht, h2, h3, h4, hex, hd]

/-- C3 witness: a concrete cache-missing oversized request serves the
original file and its trace holds no generator invocation. -/
theorem c3_exceeds_limit_short_circuit_witness :
    hasGenEvent (AlbumThumbnail thumbEnvBase ⟨"a1", "big", true, ""⟩ 0 []
        ⟨["orig/pic1.jpg"]⟩).trace = false
    ∧ (AlbumThumbnail thumbEnvBase ⟨"a1", "big", true, ""⟩ 0 []
        ⟨["orig/pic1.jpg"]⟩).resp = Response.file (pathJoin "orig" "pic1.jpg") :=
  have h := c3_exceeds_limit_short_circuit thumbEnvBase ⟨"a1", "big", true, ""⟩ 0 []
    ⟨["orig/pic1.jpg"]⟩ bigType samplePhoto rfl rfl rfl
  ⟨h.1, h.2 rfl rfl rfl rfl⟩

/-- C4: a thumbnail request that passes the token gate, resolves a known
type, misses the cache, resolves a photo whose source file is absent, is
answered with the photo fallback icon at status 200, records the
best-effort `FileMissing` flag update in its trace, and never invokes the
generator. -/
theorem c4_missing_source_fallback (env : ThumbEnv) (req : ThumbReq) (now : Nat)
    (cache : Cache) (fs : FS) (t : ThumbType) (f : PhotoFile)
    (hv : req.tokenValid = true)
    (ht : env.types req.typeName = some t)
    (hc : cacheGet cache now (thumbCacheKey req.uid req.typeName) = none)
    (hf : env.albumThumbByUID req.uid = some f)
    (hm : fs.fileExists (pathJoin env.originalsPath f.fileName) = false) :
    AlbumThumbnail env req now cache fs
      = ⟨.data 200 "image/svg+xml" photoIconSvg, cache,
          [.cacheGet (thumbCacheKey req.uid req.typeName), .markMissing f.fileName]⟩
    ∧ (AlbumThumbnail env req now cache fs).resp.status = 200
    ∧ hasGenEvent (AlbumThumbnail env req now cache fs).trace = false := by
  have h1 : AlbumThumbnail env req now cache fs
      = ⟨.data 200 "image/svg+xml" photoIconSvg, cache,
          [.cacheGet (thumbCacheKey req.uid req.typeName), .markMissing f.fileName]⟩ := by
    simp [AlbumThumbnail, hv, ht, hc, hf, hm]
  refine ⟨h1, ?_, ?_⟩ <;> rw [h1] <;> rfl

/-- C4 witness: a concrete request whose original file is absent. -/
theorem c4_missing_source_fallback_witness :
    AlbumThumbnail thumbEnvBase ⟨"a1", "big", true, ""⟩ 0 [] ⟨[]⟩
      = ⟨.data 200 "image/svg+xml" photoIconSvg, [],
          [.cacheGet (thumbCacheKey "a1" "big"), .markMissing "pic1.jpg"]⟩ :=
  (c4_missing_source_fallback thumbEnvBase ⟨"a1", "big", true, ""⟩ 0 [] ⟨[]⟩
    bigType samplePhoto rfl rfl rfl rfl rfl).1

/-- C6: with a known type, a memory-cache hit on the composite key is served
directly with the cache and trace untouched by the store or generator; a
miss followed by successful generation and artifact read serves the bytes
and inserts them into the memory cache with the fixed one-hour TTL. -/
theorem c6_memory_cache_tiers (env : ThumbEnv) (req : ThumbReq) (now : Nat)
    (cache : Cache) (fs : FS) (t : ThumbType) (f : PhotoFile) (d pth d2 : String)
    (hv : req.tokenValid = true)
    (ht : env.types req.typeName = some t) :
    (cacheGet cache now (thumbCacheKey req.uid req.typeName) = some d →
      AlbumThumbnail env req now cache fs
        = ⟨.data 200 "image/jpeg" d, cache,
            [.cacheGet (thumbCacheKey req.uid req.typeName)]⟩)
    ∧ (cacheGet cache now (thumbCacheKey req.uid req.typeName) = none →
       env.albumThumbByUID req.uid = some f →
       fs.fileExists (pathJoin env.originalsPath f.fileName) = true →
       (t.exceedsLimit && req.downloadQuery == "") = false →
       (if env.thumbUncached || t.onDemand then
          env.fromFile (pathJoin env.originalsPath f.fileName) f.fileHash
            env.thumbPath t.width t.height t.options
        else
          env.fromCache (pathJoin env.originalsPath f.fileName) f.fileHash
            env.thumbPath t.width t.height t.options) = .ok pth →
       env.readFile pth = .ok d2 →
       (AlbumThumbnail env req now cache fs).resp = .data 200 "image/jpeg" d2
       ∧ (AlbumThumbnail env req now cache fs).cache
           = cacheSet cache now (thumbCacheKey req.uid req.typeName) d2 timeHour) := by
  constructor
  · intro hhit
    simp [AlbumThumbnail, hv, ht, hhit]
  · intro h1 h2 h3 h4 h5 h6
    cases hud : (env.thumbUncached || t.onDemand) with
    | true =>
      simp only [hud, if_true] at h5
      constructor <;> simp [AlbumThumbnail, hv, ht, h1, h2, h3, h4, hud, h5, h6]
    | false =>
      simp only [hud, Bool.false_eq_true, if_false] at h5
      constructor <;> simp [AlbumThumbnail, hv, ht, h1, h2, h3, h4, hud, h5, h6]

/-- C6 witness: a concrete hit served from the cache, and a concrete miss
that fills the cache with a one-hour entry. -/
theorem c6_memory_cache_tiers_witness :
    AlbumThumbnail thumbEnvBase ⟨"a1", "big", true, "1"⟩ 0
        [("album-thumbnail:a1:big", "X", 10)] ⟨["orig/pic1.jpg"]⟩
      = ⟨.data 200 "image/jpeg" "X", [("album-thumbnail:a1:big", "X", 10)],
          [.cacheGet "album-thumbnail:a1:big"]⟩
    ∧ (AlbumThumbnail thumbEnvBase ⟨"a1", "big", true, "1"⟩ 0 []
        ⟨["orig/pic1.jpg"]⟩).cache
      = cacheSet [] 0 "album-thumbnail:a1:big" "TD" timeHour :=
  ⟨(c6_memory_cache_tiers thumbEnvBase ⟨"a1", "big", true, "1"⟩ 0
      [("album-thumbnail:a1:big", "X", 10)] ⟨["orig/pic1.jpg"]⟩ bigType samplePhoto
      "X" "cache/t1" "TD" rfl rfl).1 rfl,
   ((c6_memory_cache_tiers thumbEnvBase ⟨"a1", "big", true, "1"⟩ 0 []
      ⟨["orig/pic1.jpg"]⟩ bigType samplePhoto "X" "cache/t1" "TD" rfl rfl).2
      rfl rfl rfl (by decide) rfl rfl).2⟩

/-- C9: a thumbnail response's status is 200 whenever the token is valid and
403 exactly when it is not (served as the broken icon); each non-auth
failure — unknown type, album without photos, missing original, generation
failure, artifact read failure — is served as an SVG icon at status 200. -/
theorem c9_failures_indistinguishable (env : ThumbEnv) (req : ThumbReq) (now : Nat)
    (cache : Cache) (fs : FS) (t : ThumbType) (f : PhotoFile)
    (pth msg msg2 : String) :
    ((AlbumThumbnail env req now cache fs).resp.status
        = if req.tokenValid then 200 else 403)
    ∧ (req.tokenValid = false →
        (AlbumThumbnail env req now cache fs).resp
          = .data 403 "image/svg+xml" brokenIconSvg)
    ∧ (req.tokenValid = true → env.types req.typeName = none →
        (AlbumThumbnail env req now cache fs).resp
          = .data 200 "image/svg+xml" photoIconSvg)
    ∧ (req.tokenValid = true → env.types req.typeName = some t →
        cacheGet cache now (thumbCacheKey req.uid req.typeName) = none →
        env.albumThumbByUID req.uid = none →
        (AlbumThumbnail env req now cache fs).resp
          = .data 200 "image/svg+xml" albumIconSvg)
    ∧ (req.tokenValid = true → env.types req.typeName = some t →
        cacheGet cache now (thumbCacheKey req.uid req.typeName) = none →
        env.albumThumbByUID req.uid = some f →
        fs.fileExists (pathJoin env.originalsPath f.fileName) = false →
        (AlbumThumbnail env req now cache fs).resp
          = .data 200 "image/svg+xml" photoIconSvg)
    ∧ (req.tokenValid = true → env.types req.typeName = some t →
        cacheGet cache now (thumbCacheKey req.uid req.typeName) = none →
        env.albumThumbByUID req.uid = some f →
        fs.fileExists (pathJoin env.originalsPath f.fileName) = true →
        (t.exceedsLimit && req.downloadQuery == "") = false →
        (if env.thumbUncached || t.onDemand then
           env.fromFile (pathJoin env.originalsPath f.fileName) f.fileHash
             env.thumbPath t.width t.height t.options
         else
           env.fromCache (pathJoin env.originalsPath f.fileName) f.fileHash
             env.thumbPath t.width t.height t.options) = .error msg →
        (AlbumThumbnail env req now cache fs).resp
          = .data 200 "image/svg+xml" photoIconSvg)
    ∧ (req.tokenValid = true → env.types req.typeName = some t →
        cacheGet cache now (thumbCacheKey req.uid req.typeName) = none →
        env.albumThumbByUID req.uid = some f →
        fs.fileExists (pathJoin env.originalsPath f.fileName) = true →
        (t.exceedsLimit && req.downloadQuery == "") = false →
        (if env.thumbUncached || t.onDemand then
           env.fromFile (pathJoin env.originalsPath f.fileName) f.fileHash
             env.thumbPath t.width t.height t.options
         else
           env.fromCache (pathJoin env.originalsPath f.fileName) f.fileHash
             env.thumbPath t.width t.height t.options) = .ok pth →
        env.readFile pth = .error msg2 →
        (AlbumThumbnail env req now cache fs).resp
          = .data 200 "image/svg+xml" albumIconSvg) := by
  refine ⟨albumThumbnail_status env req now cache fs, ?_, ?_, ?_, ?_, ?_, ?_⟩
  · intro h1
    simp [AlbumThumbnail, h1]
  · intro h1 h2
    simp [AlbumThumbnail, h1, h2]
  · intro h1 h2 h3 h4
    simp [AlbumThumbnail, h1, h2, h3, h4]
  · intro h1 h2 h3 h4 h5
    simp [AlbumThumbnail, h1, h2, h3, h4, h5]
  · intro h1 h2 h3 h4 h5 h6 h7
    cases hud : (env.thumbUncached || t.onDemand) with
    | true =>
      simp only [hud, if_true] at h7
      simp [AlbumThumbnail, h1, h2, h3, h4, h5, h6, hud, h7]
    | false =>
      simp only [hud, Bool.false_eq_true, if_false] at h7
      simp [AlbumThumbnail, h1, h2, h3, h4, h5, h6, hud, h7]
  · intro h1 h2 h3 h4 h5 h6 h7 h8
    cases hud : (env.thumbUncached || t.onDemand) with
    | true =>
      simp only [hud, if_true] at h7
      simp [AlbumThumbnail, h1, h2, h3, h4, h5, h6, hud, h7, h8]
    | false =>
      simp only [hud, Bool.false_eq_true, if_false] at h7
      simp [AlbumThumbnail, h1, h2, h3, h4, h5, h6, hud, h7, h8]

/-- C9 witness: an unknown-type request is served the photo icon at 200, an
invalid-token request the broken icon at 403. -/
theorem c9_failures_indistinguishable_witness :
    (AlbumThumbnail thumbEnvBase ⟨"a1", "bad", true, ""⟩ 0 [] ⟨[]⟩).resp
        = Response.data 200 "image/svg+xml" photoIconSvg
    ∧ (AlbumThumbnail thumbEnvBase ⟨"a1", "big", false, ""⟩ 0 [] ⟨[]⟩).resp
        = Response.data 403 "image/svg+xml" brokenIconSvg :=
  ⟨(c9_failures_indistinguishable thumbEnvBase ⟨"a1", "bad", true, ""⟩ 0 [] ⟨[]⟩
      bigType samplePhoto "" "" "").2.2.1 rfl rfl,
   (c9_failures_indistinguishable thumbEnvBase ⟨"a1", "big", false, ""⟩ 0 [] ⟨[]⟩
      bigType samplePhoto "" "" "").2.1 rfl⟩

/-- C10: the single-album fetch endpoint consults no authorization state —
its response is the same whatever the gate would have said — while the album
list endpoint rejects an unauthorized request with a 401 before any work. -/
theorem c10_get_album_no_auth_gate (albumByUID : String → Option Album)
    (uid : String) (auth1 auth2 : Bool) (bindOk : Bool)
    (sr : Except String (List Album)) :
    GetAlbum albumByUID uid auth1 = GetAlbum albumByUID uid auth2
    ∧ GetAlbums false bindOk sr = Response.abortJSON 401 "Unauthorized" :=
  ⟨rfl, rfl⟩

end AlbumApi
